import Mathlib

/-!
Verification of `behavior_path_planner::AvoidanceByLCModule`
(src/planning/behavior_path_planner/src/scene_module/avoidance_by_lc/module.cpp).

The module's claim-relevant member functions are shallowly embedded as pure
Lean functions.  Distances and lateral offsets (C++ `double`) are modelled as
`Int`; only order comparisons on them occur in the embedded code paths, so the
embedding is faithful up to the numeric representation.  Calls into external
utility libraries (`util::lane_change::*`, `util::avoidance::*`, lanelet2,
motion_utils) are modelled as explicit parameters carrying the value such a
call would return; the member state mutated across calls is threaded as an
explicit `ModState` record.
-/

namespace AvoidanceByLC

/-- Module lifecycle status (`ModuleStatus` in the source). -/
inductive ModuleStatus
  | IDLE
  | RUNNING
  | SUCCESS
  | FAILURE
deriving DecidableEq, Repr

/-- Lane-change sub-states while running (`LaneChangeStates` in the source). -/
inductive LaneChangeStates
  | Normal
  | Cancel
  | Abort
  | Stop
deriving DecidableEq, Repr

/-- A path point: planar position plus heading, as used by the lane-departure
and relative-angle checks of `isValidPath`. -/
structure PathPoint where
  x : Int
  y : Int
  heading : Int
deriving DecidableEq, Repr

/-- `LaneChangePath` of the source, restricted to the fields the embedded
functions inspect: the point sequence and the lateral shift of the shift
line (`util::lane_change::getLateralShift`). A default-constructed path is
empty with zero shift. -/
structure LaneChangePath where
  points : List PathPoint
  lateralShift : Int
deriving DecidableEq, Repr, Inhabited

/-- `ObjectData` of the avoidance planning data, restricted to the fields the
embedded functions inspect: longitudinal distance from ego along the path and
lateral deviation. -/
structure ObjectData where
  longitudinal : Int
  lateral : Int
deriving DecidableEq, Repr

/-- The trigger-gate parameters of `AvoidanceByLCParameters` read by
`isExecutionRequested` / `updateState`. -/
structure ExecParams where
  executeObjectNum : Nat
  executeObjectLongitudinalMargin : Int
  executeOnlyWhenLaneChangeFinishBeforeObject : Bool
deriving DecidableEq, Repr

/-- The lane-change parameters read by the abort sub-state machine. -/
structure LCParams where
  enableCancelLaneChange : Bool
  enableAbortLaneChange : Bool
deriving DecidableEq, Repr

/-- Modelled from the spec: `isOnRight` of the avoidance utilities (declared
in util/avoidance/util.hpp, not part of src/): an object is on the right of
the path iff its lateral deviation is negative ("object positioned to the
right of path ⇒ change left; otherwise ⇒ change right"). -/
def isOnRight (o : ObjectData) : Bool :=
  o.lateral < 0

/-- Shallow embedding of `AvoidanceByLCModule::getSafePath`
(module.cpp 619-678).  `laneChangeLanes` are the lanes handed in by the
caller (identified by lanelet id), `targetObjects` is
`avoidance_data_.target_objects`, and `validPaths` / `foundSafePath` model
the output of the external candidate generator
`util::lane_change::getLaneChangePaths`.  The result is the returned pair
`(found_valid_path, found_safe_path)` together with the value written to the
out-parameter `safe_path` (`none` when the source leaves it untouched). -/
def getSafePath (laneChangeLanes : List Nat) (targetObjects : List ObjectData)
    (validPaths : List LaneChangePath) (foundSafePath : Bool) :
    (Bool × Bool) × Option LaneChangePath :=
  if laneChangeLanes.isEmpty then ((false, false), none)
  else if targetObjects.isEmpty then ((false, false), none)
  else if validPaths.isEmpty then ((false, false), none)
  else if foundSafePath then ((true, true), validPaths.getLast?)
  else ((true, false), validPaths.head?)

/-- The candidate list `valid_paths` as actually generated inside
`getSafePath`: it stays empty when one of the early returns fires before the
call to `getLaneChangePaths`. -/
def generatedCandidates (laneChangeLanes : List Nat)
    (targetObjects : List ObjectData) (validPaths : List LaneChangePath) :
    List LaneChangePath :=
  if laneChangeLanes.isEmpty then []
  else if targetObjects.isEmpty then []
  else validPaths

/-- Shallow embedding of `AvoidanceByLCModule::isExecutionRequested`
(module.cpp 75-118).  `state` is `current_state_`; `laneChangeLanes` is the
result of `getLaneChangeLanes`; `validPaths` / `foundSafePath` model the
external candidate generator inside `getSafePath`; `arcToShiftEnd` models
`calcSignedArcLength(path.points, ego, shift_line.end)` applied to the
selected path (a default-constructed `selected_path` is used when the
out-parameter was not written, as in the source). -/
def isExecutionRequested (ep : ExecParams) (state : ModuleStatus)
    (laneChangeLanes : List Nat) (targets : List ObjectData)
    (validPaths : List LaneChangePath) (foundSafePath : Bool)
    (arcToShiftEnd : LaneChangePath → Int) : Bool :=
  if state = ModuleStatus.RUNNING then true
  else
    let r := getSafePath laneChangeLanes targets validPaths foundSafePath
    if r.1.1 = false then false
    else if ep.executeObjectNum > targets.length then false
    else
      match targets.head? with
      | none => true
        -- dead branch: `found_valid_path = true` forces `targets ≠ []`
        -- (the source calls `.front()` here, undefined on an empty vector)
      | some o =>
        if ep.executeObjectLongitudinalMargin > o.longitudinal then false
        else
          let toLaneChangeEndDistance := arcToShiftEnd (r.2.getD default)
          let laneChangeFinishBeforeObject :=
            o.longitudinal > toLaneChangeEndDistance
          if ¬laneChangeFinishBeforeObject ∧
              ep.executeOnlyWhenLaneChangeFinishBeforeObject = true then false
          else true

/-- Shallow embedding of `AvoidanceByLCModule::isExecutionReady`
(module.cpp 120-139): `true` while RUNNING, otherwise the `found_safe_path`
component of `getSafePath`. -/
def isExecutionReady (state : ModuleStatus) (laneChangeLanes : List Nat)
    (targets : List ObjectData) (validPaths : List LaneChangePath)
    (foundSafePath : Bool) : Bool :=
  if state = ModuleStatus.RUNNING then true
  else (getSafePath laneChangeLanes targets validPaths foundSafePath).1.2

/-- The route-handler queries used by `getLaneChangeLanes`, modelled as an
abstract environment: `closestLane` is the lanelet returned by
`query::getClosestLanelet`, `checkLanes` the sequence returned by
`getLaneletSequence(current_lane, pose, 0, prepare_length)`, `leftOf` /
`rightOf` the routing-graph adjacency lookups, and `seqOf l` the sequence
`getLaneletSequence(l, pose, len, len)` for an adjacent lanelet `l`. -/
structure RouteEnv where
  closestLane : Nat
  checkLanes : List Nat
  leftOf : Nat → Option Nat
  rightOf : Nat → Option Nat
  seqOf : Nat → List Nat

/-- Shallow embedding of `AvoidanceByLCModule::getLaneChangeLanes`
(module.cpp 566-617): empty when the current lanes are empty or the target
object count is below `execute_object_num`; otherwise walk `checkLanes` and
take the lanelet sequence of the first adjacent lane on the avoidance side
(left of a right-side front object, right otherwise). -/
def getLaneChangeLanes (ep : ExecParams) (env : RouteEnv)
    (currentLanes : List Nat) (targets : List ObjectData) : List Nat :=
  if currentLanes.isEmpty then []
  else if targets.length < ep.executeObjectNum then []
  else
    match targets.head? with
    | none => []
      -- dead branch unless `executeObjectNum = 0`: the source calls
      -- `.front()` here, undefined on an empty vector
    | some oFront =>
      let adjacent : Nat → Option Nat :=
        if isOnRight oFront then env.leftOf else env.rightOf
      match env.checkLanes.findSome? (fun l => (adjacent l).map env.seqOf) with
      | some seq => seq
      | none => []

/-- Shallow embedding of the target-object pipeline of
`AvoidanceByLCModule::updateData` (module.cpp 141-154).  The external
avoidance utilities `updateRegisteredObject` (registry update) and
`compensateDetectionLost` (detection-loss compensation) are modelled as
function parameters: `updateRegistered registry targets` is the registry
after the update, `compensate registry targets others` is the target list
after compensation.  The final `std::sort` with the comparator
`a.longitudinal < b.longitudinal` is modelled by `List.mergeSort` with the
corresponding non-strict order, matching the `std::sort` postcondition. -/
def updateDataTargetObjects
    (updateRegistered : List ObjectData → List ObjectData → List ObjectData)
    (compensate :
      List ObjectData → List ObjectData → List ObjectData → List ObjectData)
    (registry targets others : List ObjectData) : List ObjectData :=
  let registry2 := updateRegistered registry targets
  let targets2 := compensate registry2 targets others
  targets2.mergeSort (fun a b => a.longitudinal ≤ b.longitudinal)

/-- The mutable member state of `AvoidanceByLCModule` threaded through the
abort sub-state machine, `plan` and `updateState`:
`laneChangeState` is `current_lane_change_state_`, `abortPath` the
`abort_path_` shared pointer (`none` = null), `laneChangePath` is
`status_.lane_change_path`, `isValidPathFlag` is `status_.is_valid_path`,
`waitingApproval` the RTC waiting-approval flag, `uuidLeft` / `uuidRight`
model `uuid_map_` and `rtcLeft` / `rtcRight` whether an RTC registration for
that side is currently in place; `nextUuid` models the fresh value the next
`generateUUID()` call returns. -/
structure ModState where
  laneChangeState : LaneChangeStates
  abortPath : Option LaneChangePath
  isAbortPathApproved : Bool
  isAbortApprovalRequested : Bool
  isActivatedFlag : Bool
  isValidPathFlag : Bool
  waitingApproval : Bool
  laneChangePath : LaneChangePath
  uuidLeft : Nat
  uuidRight : Nat
  rtcLeft : Bool
  rtcRight : Bool
  nextUuid : Nat
deriving DecidableEq, Repr

/-- The per-cycle observations consumed by `isAbortConditionSatisfied`:
`isPathSafe` models `isApprovedPathSafe`, `isWithinOriginalLane` models
`util::lane_change::isEgoWithinOriginalLane`, and `foundAbortPath` the
result of `util::lane_change::getAbortPaths` (`none` = no abort path). -/
structure CycleObs where
  isPathSafe : Bool
  isWithinOriginalLane : Bool
  foundAbortPath : Option LaneChangePath
deriving DecidableEq, Repr

/-- Shallow embedding of `AvoidanceByLCModule::isAbortConditionSatisfied`
(module.cpp 742-797).  Returns the boolean result together with the updated
member state (the function first resets `current_lane_change_state_` to
`Normal`, then possibly sets `Cancel` / `Stop` / `Abort` and stores a newly
found abort path). -/
def isAbortConditionSatisfied (p : LCParams) (obs : CycleObs)
    (st : ModState) : Bool × ModState :=
  let st := { st with laneChangeState := LaneChangeStates.Normal }
  if p.enableCancelLaneChange = false then (false, st)
  else if st.isActivatedFlag = false then (false, st)
  else if obs.isPathSafe then (false, st)
  else if obs.isWithinOriginalLane then
    (true, { st with laneChangeState := LaneChangeStates.Cancel })
  else if p.enableAbortLaneChange = false then
    (false, { st with laneChangeState := LaneChangeStates.Stop })
  else
    match obs.foundAbortPath with
    | none =>
      if st.isAbortPathApproved = false then
        (true, { st with laneChangeState := LaneChangeStates.Stop })
      else
        (true, { st with laneChangeState := LaneChangeStates.Abort })
    | some ap =>
      if st.isAbortPathApproved = false then
        (true, { st with laneChangeState := LaneChangeStates.Abort,
                         abortPath := some ap })
      else
        (true, { st with laneChangeState := LaneChangeStates.Abort })

/-- Shallow embedding of `AvoidanceByLCModule::isAbortState`
(module.cpp 799-817): true iff aborting is enabled, the sub-state is
`Abort`, and the stored abort path is non-null. -/
def isAbortState (p : LCParams) (st : ModState) : Bool :=
  if p.enableAbortLaneChange = false then false
  else if st.laneChangeState ≠ LaneChangeStates.Abort then false
  else if st.abortPath.isNone then false
  else true

/-- Iterated evaluation of the abort condition over a sequence of cycles
(the only writers of `current_lane_change_state_` besides it reset the
sub-state to `Normal`). -/
def runAbortCycles (p : LCParams) (obss : List CycleObs)
    (st : ModState) : ModState :=
  obss.foldl (fun s obs => (isAbortConditionSatisfied p obs s).2) st

/-- Modelled from the spec: a drivable lanelet as the set of path poses it
contains (`lanelet::utils::isInLanelet` of the external lanelet2 library is
not part of src/); membership is point containment. -/
abbrev Lanelet : Type := List PathPoint

/-- Point-in-lanelet test (`lanelet::utils::isInLanelet`). -/
def isInLanelet (pt : PathPoint) (l : Lanelet) : Bool :=
  List.contains l pt

/-- Modelled from the spec: `util::checkPathRelativeAngle` (declared in
util/utils.hpp, not part of src/) — the "maximum relative-heading continuity
check between consecutive path points": every consecutive pair of points has
absolute heading difference at most `maxAngle`. -/
def checkPathRelativeAngle (pts : List PathPoint) (maxAngle : Int) : Bool :=
  match pts with
  | [] => true
  | _ :: rest =>
    (pts.zip rest).all fun ab => |ab.2.heading - ab.1.heading| ≤ maxAngle

/-- Shallow embedding of `AvoidanceByLCModule::isValidPath(path)`
(module.cpp 690-725).  `lanelets` is the lanelet list produced by the
external drivable-lane pipeline (`generateDrivableLanes` → `expandLanelets`
→ `transformToLanelets`); the path is valid iff every point lies in some
lanelet and the relative-angle check passes (`M_PI` is modelled by the
threshold parameter `maxAngle`). -/
def isValidPathCheck (lanelets : List Lanelet) (maxAngle : Int)
    (pts : List PathPoint) : Bool :=
  (pts.all fun pt => lanelets.any fun l => isInLanelet pt l) &&
    checkPathRelativeAngle pts maxAngle

/-- Shallow embedding of `AvoidanceByLCModule::resetPathIfAbort`
(module.cpp 368-398), `USE_OLD_ARCHITECTURE` branch (the new-architecture
branch removes every RTC registration instead of the side-specific one).
On the first call of an abort episode it removes the RTC registration on the
side of the abort path's lateral shift and draws a fresh UUID for it, then
marks abort approval as requested and not yet granted; on later calls it
grants or re-requests approval according to the activation signal.
Returns `none` when the source would dereference a null `abort_path_`. -/
def resetPathIfAbort (activated : Bool) (st : ModState) : Option ModState :=
  if st.isAbortApprovalRequested = false then
    match st.abortPath with
    | none => none
    | some ap =>
      let st :=
        if ap.lateralShift > 0 then
          { st with rtcRight := false, uuidRight := st.nextUuid,
                    nextUuid := st.nextUuid + 1 }
        else if ap.lateralShift < 0 then
          { st with rtcLeft := false, uuidLeft := st.nextUuid,
                    nextUuid := st.nextUuid + 1 }
        else st
      some { st with isAbortApprovalRequested := true,
                     isAbortPathApproved := false }
  else if activated then
    some { st with isAbortPathApproved := true, waitingApproval := false }
  else
    some { st with isAbortPathApproved := false, waitingApproval := true }

/-- Shallow embedding of `AvoidanceByLCModule::plan` (module.cpp 321-366),
restricted to the published path and the member state (candidate/reference
bookkeeping, drivable-area generation, turn signals and steering factors are
external side channels).  `activated` is the per-cycle `isActivated()`
snapshot stored into `is_activated_`.  The result is `none` when the source
would dereference a null `abort_path_`; otherwise it is the published path
(`none` = the empty `BehaviorModuleOutput{}` of the invalid-path branch)
paired with the updated member state.  The discarded
`util::insertStopPoint` call of line 336 has no modelled effect. -/
def plan (p : LCParams) (lanelets : List Lanelet) (maxAngle : Int)
    (activated : Bool) (st : ModState) :
    Option (Option LaneChangePath × ModState) :=
  let st := { st with isActivatedFlag := activated }
  if isValidPathCheck lanelets maxAngle st.laneChangePath.points = false then
    some (none, { st with isValidPathFlag := false })
  else
    let st := { st with isValidPathFlag := true }
    if isAbortState p st then
      match resetPathIfAbort activated st with
      | none => none
      | some st2 =>
        if st2.isActivatedFlag then
          match st2.abortPath with
          | none => none
          | some ap =>
            some (some ap, { st2 with waitingApproval := false })
        else
          some (some st.laneChangePath, { st2 with waitingApproval := false })
    else
      some (some st.laneChangePath, { st with waitingApproval := false })

/-- The per-cycle observations consumed by `updateState` in addition to
`CycleObs`: `toLaneChangeEndDistance` models
`calcSignedArcLength(status_.lane_change_path.path.points, ego,
shift_line.end)`, the booleans model `isEgoWithinOriginalLane`,
`isNearEndOfLane`, `isCurrentVelocityLow` and `hasFinishedLaneChange`. -/
structure UpdateObs where
  toLaneChangeEndDistance : Int
  isWithinCurrentLane : Bool
  nearEndOfLane : Bool
  currentVelocityLow : Bool
  finishedLaneChange : Bool
  cycle : CycleObs
deriving DecidableEq, Repr

/-- Shallow embedding of `AvoidanceByLCModule::updateState`
(module.cpp 262-319).  Returns the new `current_state_` together with the
member state updated by the embedded `isAbortConditionSatisfied` call. -/
def updateState (p : LCParams) (ep : ExecParams) (obs : UpdateObs)
    (targets : List ObjectData) (st : ModState) : ModuleStatus × ModState :=
  if st.isValidPathFlag = false then (ModuleStatus.SUCCESS, st)
  else
    let waitingGate : Option ModuleStatus :=
      if st.waitingApproval then
        if ep.executeObjectNum > targets.length then
          some ModuleStatus.SUCCESS
        else
          match targets.head? with
          | none => none
            -- dead branch unless `executeObjectNum = 0`: the source calls
            -- `.front()` here, undefined on an empty vector
          | some o =>
            if ep.executeObjectLongitudinalMargin > o.longitudinal then
              some ModuleStatus.FAILURE
            else
              let laneChangeFinishBeforeObject :=
                o.longitudinal > obs.toLaneChangeEndDistance
              if ¬laneChangeFinishBeforeObject ∧
                  ep.executeOnlyWhenLaneChangeFinishBeforeObject = true then
                some ModuleStatus.FAILURE
              else none
      else none
    match waitingGate with
    | some s => (s, st)
    | none =>
      if isAbortState p st ∧ obs.isWithinCurrentLane = false then
        (ModuleStatus.RUNNING, st)
      else
        let r := isAbortConditionSatisfied p obs.cycle st
        if r.1 then
          if (obs.nearEndOfLane ∧ obs.currentVelocityLow) ∨
              obs.isWithinCurrentLane = false then
            (ModuleStatus.RUNNING, r.2)
          else
            (ModuleStatus.FAILURE, r.2)
        else if obs.finishedLaneChange then
          (ModuleStatus.SUCCESS, r.2)
        else
          (ModuleStatus.RUNNING, r.2)

/-- C1: for every call to `getSafePath` whose internally generated candidate
list is non-empty, a true safety flag means the selected path is the last
generated candidate and a false safety flag means it is the first; an empty
candidate list makes the returned validity flag false. -/
theorem C1_getSafePath_selection (lanes : List Nat) (targets : List ObjectData)
    (validPaths : List LaneChangePath) (foundSafePath : Bool) :
    (generatedCandidates lanes targets validPaths ≠ [] →
      ((getSafePath lanes targets validPaths foundSafePath).1.2 = true →
        (getSafePath lanes targets validPaths foundSafePath).2 =
          (generatedCandidates lanes targets validPaths).getLast?) ∧
      ((getSafePath lanes targets validPaths foundSafePath).1.2 = false →
        (getSafePath lanes targets validPaths foundSafePath).2 =
          (generatedCandidates lanes targets validPaths).head?)) ∧
    (generatedCandidates lanes targets validPaths = [] →
      (getSafePath lanes targets validPaths foundSafePath).1.1 = false) := by
  rcases lanes with _ | ⟨l, ls⟩ <;> rcases targets with _ | ⟨t, ts⟩ <;>
    rcases validPaths with _ | ⟨v, vs⟩ <;> cases foundSafePath <;>
      simp [getSafePath, generatedCandidates]

/-- Witness for C1 at a concrete call with two candidates. -/
theorem C1_getSafePath_selection_witness :
    (getSafePath [1] [⟨10, 0⟩] [⟨[], 1⟩, ⟨[], 2⟩] true).2 =
      ([⟨[], 1⟩, ⟨[], 2⟩] : List LaneChangePath).getLast? :=
  ((C1_getSafePath_selection [1] [⟨10, 0⟩] [⟨[], 1⟩, ⟨[], 2⟩] true).1
    (by decide)).1 (by decide)

/-- C2: after every cycle's `updateData` completes (registry update and
detection-loss compensation included), the target-object list is sorted by
non-decreasing longitudinal distance. -/
theorem C2_updateData_targets_sorted
    (updateRegistered : List ObjectData → List ObjectData → List ObjectData)
    (compensate :
      List ObjectData → List ObjectData → List ObjectData → List ObjectData)
    (registry targets others : List ObjectData) :
    (updateDataTargetObjects updateRegistered compensate registry targets
      others).Pairwise (fun a b => a.longitudinal ≤ b.longitudinal) := by
  unfold updateDataTargetObjects
  have h := @List.sorted_mergeSort ObjectData
    (fun a b => decide (a.longitudinal ≤ b.longitudinal))
    (fun a b c hab hbc => by
      simp only [decide_eq_true_eq] at *
      exact le_trans hab hbc)
    (fun a b => by
      simp only [Bool.or_eq_true, decide_eq_true_eq]
      exact le_total _ _)
    (compensate (updateRegistered registry targets) targets others)
  simpa only [decide_eq_true_eq] using h

/-- C3: whenever the module is not RUNNING and the nearest target object's
longitudinal distance is strictly below `execute_object_longitudinal_margin`,
`isExecutionRequested` returns false, for every object configuration. -/
theorem C3_margin_blocks_execution (ep : ExecParams) (state : ModuleStatus)
    (lanes : List Nat) (targets : List ObjectData)
    (validPaths : List LaneChangePath) (foundSafePath : Bool)
    (arcToShiftEnd : LaneChangePath → Int)
    (hstate : state ≠ ModuleStatus.RUNNING)
    (hne : targets ≠ [])
    (hnearest : ∀ o ∈ targets, (targets.head hne).longitudinal ≤ o.longitudinal)
    (hmargin : (targets.head hne).longitudinal <
      ep.executeObjectLongitudinalMargin) :
    isExecutionRequested ep state lanes targets validPaths foundSafePath
      arcToShiftEnd = false := by
  obtain ⟨o, ts, rfl⟩ : ∃ o ts, targets = o :: ts := by
    cases targets with
    | nil => exact absurd rfl hne
    | cons o ts => exact ⟨o, ts, rfl⟩
  have hm : ep.executeObjectLongitudinalMargin > o.longitudinal := by
    simpa using hmargin
  rcases lanes with _ | ⟨l, ls⟩ <;> rcases validPaths with _ | ⟨v, vs⟩ <;>
    cases foundSafePath <;>
      simp [isExecutionRequested, getSafePath, hstate, hm]

/-- Witness for C3: one target object at longitudinal distance 3 with
`execute_object_longitudinal_margin = 5` (scenario A of the spec). -/
theorem C3_margin_blocks_execution_witness :
    isExecutionRequested ⟨1, 5, false⟩ ModuleStatus.IDLE [1] [⟨3, 0⟩]
      [⟨[], 0⟩] true (fun _ => 0) = false :=
  C3_margin_blocks_execution ⟨1, 5, false⟩ ModuleStatus.IDLE [1] [⟨3, 0⟩]
    [⟨[], 0⟩] true (fun _ => 0) (by decide) (by decide)
    (by decide) (by decide)

/-- A concrete module state used by the witnesses below. -/
def sampleState : ModState where
  laneChangeState := LaneChangeStates.Normal
  abortPath := none
  isAbortPathApproved := false
  isAbortApprovalRequested := false
  isActivatedFlag := true
  isValidPathFlag := true
  waitingApproval := true
  laneChangePath := ⟨[⟨0, 0, 0⟩], 1⟩
  uuidLeft := 10
  uuidRight := 11
  rtcLeft := true
  rtcRight := true
  nextUuid := 12

/-- A concrete module state in the `Abort` sub-state with a stored abort
path, used by the witnesses below. -/
def sampleAbortState : ModState :=
  { sampleState with
      laneChangeState := LaneChangeStates.Abort,
      abortPath := some ⟨[⟨0, 0, 0⟩], 1⟩ }

/-- Helper: the abort condition evaluation never yields the `Abort` sub-state
while `enable_abort_lane_change` is false. -/
theorem abortCond_state_of_disabled (p : LCParams) (obs : CycleObs)
    (st : ModState) (hp : p.enableAbortLaneChange = false) :
    ((isAbortConditionSatisfied p obs st).2).laneChangeState ≠
      LaneChangeStates.Abort := by
  rcases obs with ⟨ps, wl, fap⟩
  cases hec : p.enableCancelLaneChange <;> cases ps <;> cases wl <;>
    rcases fap with _ | ap <;>
      cases hact : st.isActivatedFlag <;>
        cases happ : st.isAbortPathApproved <;>
          simp [isAbortConditionSatisfied, hp, hec, hact, happ]

/-- C4: with `enable_abort_lane_change` false, every evaluation of the abort
condition leaves the sub-state as Normal, Cancel or Stop (never Abort),
`isAbortState` is always false, and over any sequence of abort-condition
evaluations the sub-state machine never enters Abort. -/
theorem C4_abort_disabled_never_abort (p : LCParams)
    (hp : p.enableAbortLaneChange = false) :
    (∀ obs st, ((isAbortConditionSatisfied p obs st).2).laneChangeState ≠
      LaneChangeStates.Abort) ∧
    (∀ st, isAbortState p st = false) ∧
    (∀ obss st, st.laneChangeState ≠ LaneChangeStates.Abort →
      (runAbortCycles p obss st).laneChangeState ≠ LaneChangeStates.Abort) := by
  refine ⟨fun obs st => abortCond_state_of_disabled p obs st hp,
    fun st => by simp [isAbortState, hp], ?_⟩
  intro obss
  induction obss with
  | nil => intro st hst; simpa [runAbortCycles] using hst
  | cons o os ih =>
    intro st _
    have hstep : runAbortCycles p (o :: os) st =
        runAbortCycles p os ((isAbortConditionSatisfied p o st).2) := rfl
    rw [hstep]
    exact ih _ (abortCond_state_of_disabled p o st hp)

/-- Witness for C4 at a concrete disabled-abort configuration. -/
theorem C4_abort_disabled_never_abort_witness :
    ((isAbortConditionSatisfied ⟨true, false⟩ ⟨false, false, none⟩
      sampleState).2).laneChangeState ≠ LaneChangeStates.Abort ∧
    isAbortState ⟨true, false⟩ sampleState = false ∧
    (runAbortCycles ⟨true, false⟩ [⟨false, false, none⟩, ⟨false, true, none⟩]
      sampleState).laneChangeState ≠ LaneChangeStates.Abort := by
  obtain ⟨h1, h2, h3⟩ := C4_abort_disabled_never_abort ⟨true, false⟩ (by decide)
  exact ⟨h1 _ _, h2 _, h3 _ sampleState (by decide)⟩

/-- Helper: `isAbortState` only reads the sub-state and the abort path, so
updating the activation and validity flags does not change it. -/
theorem isAbortState_flags (p : LCParams) (st : ModState) (a b : Bool) :
    isAbortState p
      { st with isActivatedFlag := a, isValidPathFlag := b } =
      isAbortState p st := rfl

/-- Helper: a true `isAbortState` forces a non-null stored abort path. -/
theorem isAbortState_abortPath_isSome (p : LCParams) (st : ModState)
    (h : isAbortState p st = true) : st.abortPath.isSome = true := by
  cases hap : st.abortPath with
  | some ap => simp
  | none => simp [isAbortState, hap] at h

/-- Helper: `resetPathIfAbort` succeeds whenever the stored abort path is
non-null. -/
theorem resetPathIfAbort_isSome (activated : Bool) (st : ModState)
    (hap : st.abortPath.isSome = true) :
    (resetPathIfAbort activated st).isSome = true := by
  unfold resetPathIfAbort
  split
  · cases hx : st.abortPath with
    | none => rw [hx] at hap; simp at hap
    | some ap => simp
  · split <;> simp

/-- Helper: `resetPathIfAbort` leaves the stored abort path unchanged. -/
theorem resetPathIfAbort_abortPath (activated : Bool) (st st2 : ModState)
    (h : resetPathIfAbort activated st = some st2) :
    st2.abortPath = st.abortPath := by
  unfold resetPathIfAbort at h
  split at h
  · cases hx : st.abortPath with
    | none => rw [hx] at h; simp at h
    | some ap =>
      rw [hx] at h
      simp only [Option.some.injEq] at h
      subst h
      split
      · simp [hx]
      · split <;> simp [hx]
  · split at h <;> (simp only [Option.some.injEq] at h; subst h; rfl)

/-- C5: in every reachable state, `isAbortState` returning true implies the
stored abort-path pointer is non-null, and `plan` never dereferences a null
abort path (its embedded result, where `none` marks the null dereference, is
always defined). -/
theorem C5_abort_state_requires_path (p : LCParams) (lanelets : List Lanelet)
    (maxAngle : Int) (activated : Bool) (st : ModState) :
    (isAbortState p st = true → st.abortPath.isSome = true) ∧
    (plan p lanelets maxAngle activated st).isSome = true := by
  refine ⟨isAbortState_abortPath_isSome p st, ?_⟩
  by_cases hv :
      isValidPathCheck lanelets maxAngle st.laneChangePath.points = false
  · simp [plan, hv]
  · by_cases hab : isAbortState p st = true
    · have hsome : st.abortPath.isSome = true :=
        isAbortState_abortPath_isSome p st hab
      obtain ⟨ap, hap⟩ := Option.isSome_iff_exists.mp hsome
      have hsome1 : ({ st with isActivatedFlag := activated, isValidPathFlag := true } : ModState).abortPath.isSome = true := hsome
      obtain ⟨st2, hst2⟩ :=
        Option.isSome_iff_exists.mp (resetPathIfAbort_isSome activated _ hsome1)
      have hap2 : st2.abortPath = some ap := by
        rw [resetPathIfAbort_abortPath activated _ st2 hst2]
        exact hap
      simp only [plan, hv, if_false, isAbortState_flags, hab, if_true, hst2,
        hap2]
      cases hact : st2.isActivatedFlag <;> simp [hact]
    · simp [plan, hv, isAbortState_flags, hab]

/-- Witness for C5 at a concrete abort state carrying an abort path. -/
theorem C5_abort_state_requires_path_witness :
    (sampleAbortState.abortPath.isSome = true) ∧
    (plan ⟨true, true⟩ [[⟨0, 0, 0⟩]] 3 true sampleAbortState).isSome = true := by
  obtain ⟨h1, h2⟩ := C5_abort_state_requires_path ⟨true, true⟩ [[⟨0, 0, 0⟩]] 3
    true sampleAbortState
  exact ⟨h1 (by decide), h2⟩

/-- Helper: the first `resetPathIfAbort` call of an abort episode marks
approval as requested and not granted, removes the RTC registration on the
shift side and stores the fresh UUID there, and touches nothing else the
abort flow depends on. -/
theorem resetPathIfAbort_first (activated : Bool) (st : ModState)
    (ap : LaneChangePath)
    (hreq : st.isAbortApprovalRequested = false)
    (hap : st.abortPath = some ap) :
    ∃ st2, resetPathIfAbort activated st = some st2 ∧
      st2.isAbortApprovalRequested = true ∧
      st2.isAbortPathApproved = false ∧
      st2.isActivatedFlag = st.isActivatedFlag ∧
      st2.abortPath = st.abortPath ∧
      st2.laneChangePath = st.laneChangePath ∧
      (ap.lateralShift > 0 →
        st2.rtcRight = false ∧ st2.uuidRight = st.nextUuid) ∧
      (ap.lateralShift < 0 →
        st2.rtcLeft = false ∧ st2.uuidLeft = st.nextUuid) := by
  unfold resetPathIfAbort
  rw [if_pos hreq, hap]
  refine ⟨_, rfl, rfl, rfl, ?_, ?_, ?_, ?_, ?_⟩
  · show (if ap.lateralShift > 0 then _ else _ : ModState).isActivatedFlag = _
    split
    · rfl
    · split <;> rfl
  · show (if ap.lateralShift > 0 then _ else _ : ModState).abortPath = _
    split
    · rfl
    · split
      · rfl
      · exact hap
  · show (if ap.lateralShift > 0 then _ else _ : ModState).laneChangePath = _
    split
    · rfl
    · split <;> rfl
  · intro h1
    show (if ap.lateralShift > 0 then _ else _ : ModState).rtcRight = false ∧ _
    rw [if_pos h1]
    exact ⟨rfl, rfl⟩
  · intro h2
    have h1 : ¬ap.lateralShift > 0 := by omega
    show (if ap.lateralShift > 0 then _ else _ : ModState).rtcLeft = false ∧ _
    rw [if_neg h1, if_pos h2]
    exact ⟨rfl, rfl⟩

/-- Helper: later `resetPathIfAbort` calls of an abort episode grant or
revoke the abort approval according to the activation signal. -/
theorem resetPathIfAbort_later (activated : Bool) (st : ModState)
    (hreq : st.isAbortApprovalRequested = true) :
    resetPathIfAbort activated st =
      some (if activated then
        { st with isAbortPathApproved := true, waitingApproval := false }
      else
        { st with isAbortPathApproved := false, waitingApproval := true }) := by
  unfold resetPathIfAbort
  rw [if_neg (by simp [hreq])]
  cases activated <;> simp

/-- C6: while in the Abort sub-state (with a valid committed path), the first
`plan` cycle invalidates the previous approval registration on the abort
side and draws a fresh identifier while marking a new approval as requested
and not granted; in every abort cycle the published output is the abort path
exactly when the activation signal is observed true, and otherwise stays the
forward lane-change path; in later abort cycles the approval flag mirrors
the activation signal. -/
theorem C6_abort_requests_fresh_approval (p : LCParams)
    (lanelets : List Lanelet) (maxAngle : Int) (activated : Bool)
    (st : ModState) (ap : LaneChangePath)
    (hvalid :
      isValidPathCheck lanelets maxAngle st.laneChangePath.points = true)
    (habort : isAbortState p st = true)
    (hap : st.abortPath = some ap)
    (hfreshR : st.nextUuid ≠ st.uuidRight)
    (hfreshL : st.nextUuid ≠ st.uuidLeft) :
    ∃ st2,
      plan p lanelets maxAngle activated st =
        some (if activated then some ap else some st.laneChangePath, st2) ∧
      (st.isAbortApprovalRequested = false →
        st2.isAbortApprovalRequested = true ∧
        st2.isAbortPathApproved = false ∧
        (ap.lateralShift > 0 →
          st2.rtcRight = false ∧ st2.uuidRight ≠ st.uuidRight) ∧
        (ap.lateralShift < 0 →
          st2.rtcLeft = false ∧ st2.uuidLeft ≠ st.uuidLeft)) ∧
      (st.isAbortApprovalRequested = true →
        st2.isAbortPathApproved = activated) := by
  have hv : ¬isValidPathCheck lanelets maxAngle st.laneChangePath.points =
      false := by simp [hvalid]
  by_cases hreq : st.isAbortApprovalRequested = false
  · obtain ⟨st2, hrst, hr1, hr2, hr3, hr4, hr5, hr6, hr7⟩ :=
      resetPathIfAbort_first activated
        { st with isActivatedFlag := activated, isValidPathFlag := true }
        ap hreq hap
    refine ⟨{ st2 with waitingApproval := false }, ?_, ?_, ?_⟩
    · simp only [plan, hv, if_false, isAbortState_flags, habort, if_true,
        hrst]
      have hact2 : st2.isActivatedFlag = activated := hr3
      have hap2 : st2.abortPath = some ap := by
        rw [hr4]; exact hap
      cases activated with
      | true => simp [hact2, hap2]
      | false => simp [hact2, hr5]
    · intro _
      refine ⟨hr1, hr2, ?_, ?_⟩
      · intro h1
        obtain ⟨ha, hb⟩ := hr6 h1
        exact ⟨ha, by simp only [hb]; exact hfreshR⟩
      · intro h2
        obtain ⟨ha, hb⟩ := hr7 h2
        exact ⟨ha, by simp only [hb]; exact hfreshL⟩
    · intro hcontra
      rw [hcontra] at hreq
      simp at hreq
  · have hreq2 : st.isAbortApprovalRequested = true := by
      cases h : st.isAbortApprovalRequested
      · exact absurd h hreq
      · rfl
    cases activated with
    | true =>
      have hrst := resetPathIfAbort_later true
        { st with isActivatedFlag := true, isValidPathFlag := true } hreq2
      simp only [if_true] at hrst
      refine ⟨{ st with
          isActivatedFlag := true,
          isValidPathFlag := true,
          isAbortPathApproved := true,
          waitingApproval := false }, ?_, ?_, ?_⟩
      · simp only [plan, hv, if_false, isAbortState_flags, habort, if_true,
          hrst]
        simp [hap]
      · intro hcontra
        rw [hcontra] at hreq2
        simp at hreq2
      · intro _
        rfl
    | false =>
      have hrst := resetPathIfAbort_later false
        { st with isActivatedFlag := false, isValidPathFlag := true } hreq2
      simp only [Bool.false_eq_true, if_false] at hrst
      refine ⟨{ st with
          isActivatedFlag := false,
          isValidPathFlag := true,
          isAbortPathApproved := false,
          waitingApproval := false }, ?_, ?_, ?_⟩
      · simp only [plan, hv, if_false, isAbortState_flags, habort, if_true,
          hrst]
        simp
      · intro hcontra
        rw [hcontra] at hreq2
        simp at hreq2
      · intro _
        rfl

/-- Witness for C6: first abort cycle from a concrete abort state with a
right-shifted abort path and a fresh pending UUID. -/
theorem C6_abort_requests_fresh_approval_witness :
    ∃ st2,
      plan ⟨true, true⟩ [[⟨0, 0, 0⟩]] 3 true sampleAbortState =
        some (if (true : Bool) then some (⟨[⟨0, 0, 0⟩], 1⟩ : LaneChangePath)
          else some sampleAbortState.laneChangePath, st2) ∧
      (sampleAbortState.isAbortApprovalRequested = false →
        st2.isAbortApprovalRequested = true ∧
        st2.isAbortPathApproved = false ∧
        ((⟨[⟨0, 0, 0⟩], 1⟩ : LaneChangePath).lateralShift > 0 →
          st2.rtcRight = false ∧
          st2.uuidRight ≠ sampleAbortState.uuidRight) ∧
        ((⟨[⟨0, 0, 0⟩], 1⟩ : LaneChangePath).lateralShift < 0 →
          st2.rtcLeft = false ∧
          st2.uuidLeft ≠ sampleAbortState.uuidLeft)) ∧
      (sampleAbortState.isAbortApprovalRequested = true →
        st2.isAbortPathApproved = true) :=
  C6_abort_requests_fresh_approval ⟨true, true⟩ [[⟨0, 0, 0⟩]] 3 true
    sampleAbortState ⟨[⟨0, 0, 0⟩], 1⟩ (by decide) (by decide) (by decide)
    (by decide) (by decide)

/-- A concrete observation record for the witnesses below. -/
def sampleUpdateObs : UpdateObs where
  toLaneChangeEndDistance := 0
  isWithinCurrentLane := true
  nearEndOfLane := false
  currentVelocityLow := false
  finishedLaneChange := false
  cycle := ⟨true, true, none⟩

/-- C7: a committed path with a point outside every drivable lanelet, or one
violating the relative-heading continuity check, fails the validity check;
`plan` then marks the status invalid and returns the empty output, and the
following `updateState` reports the terminal SUCCESS status instead of
RUNNING. -/
theorem C7_invalid_path_rejected (p : LCParams) (ep : ExecParams)
    (lanelets : List Lanelet) (maxAngle : Int) (activated : Bool)
    (obs : UpdateObs) (targets : List ObjectData) (st : ModState)
    (hbad :
      (∃ pt ∈ st.laneChangePath.points, ∀ l ∈ lanelets,
        isInLanelet pt l = false) ∨
      checkPathRelativeAngle st.laneChangePath.points maxAngle = false) :
    isValidPathCheck lanelets maxAngle st.laneChangePath.points = false ∧
    ∃ st2, plan p lanelets maxAngle activated st = some (none, st2) ∧
      st2.isValidPathFlag = false ∧
      (updateState p ep obs targets st2).1 = ModuleStatus.SUCCESS ∧
      (updateState p ep obs targets st2).1 ≠ ModuleStatus.RUNNING := by
  have hinv :
      isValidPathCheck lanelets maxAngle st.laneChangePath.points = false := by
    rcases hbad with ⟨pt, hpt, hout⟩ | hang
    · have hall : st.laneChangePath.points.all
          (fun pt => lanelets.any fun l => isInLanelet pt l) = false := by
        rw [List.all_eq_false]
        refine ⟨pt, hpt, ?_⟩
        simp only [List.any_eq_true, not_exists]
        rintro l ⟨hl, hil⟩
        rw [hout l hl] at hil
        exact absurd hil (by simp)
      simp [isValidPathCheck, hall]
    · simp [isValidPathCheck, hang]
  refine ⟨hinv,
    { st with isActivatedFlag := activated, isValidPathFlag := false },
    ?_, rfl, ?_, ?_⟩
  · simp [plan, hinv]
  · simp [updateState]
  · simp [updateState]

/-- Witness for C7: a one-point committed path lying outside the only
drivable lanelet. -/
theorem C7_invalid_path_rejected_witness :
    isValidPathCheck [[⟨0, 0, 0⟩]] 3
      ({ sampleState with
          laneChangePath := ⟨[⟨5, 5, 0⟩], 1⟩ } : ModState).laneChangePath.points
      = false ∧
    ∃ st2, plan ⟨true, true⟩ [[⟨0, 0, 0⟩]] 3 true
        { sampleState with laneChangePath := ⟨[⟨5, 5, 0⟩], 1⟩ } =
        some (none, st2) ∧
      st2.isValidPathFlag = false ∧
      (updateState ⟨true, true⟩ ⟨1, 5, false⟩ sampleUpdateObs [] st2).1 =
        ModuleStatus.SUCCESS ∧
      (updateState ⟨true, true⟩ ⟨1, 5, false⟩ sampleUpdateObs [] st2).1 ≠
        ModuleStatus.RUNNING :=
  C7_invalid_path_rejected ⟨true, true⟩ ⟨1, 5, false⟩ [[⟨0, 0, 0⟩]] 3 true
    sampleUpdateObs []
    { sampleState with laneChangePath := ⟨[⟨5, 5, 0⟩], 1⟩ }
    (Or.inl ⟨⟨5, 5, 0⟩, by decide, by decide⟩)

/-- C8 counterexample: during a waiting-approval state update with a valid
path, a target-object count below `execute_object_num` makes `updateState`
return SUCCESS, not the FAILURE the claim asserts. -/
theorem C8_count_below_counterexample :
    (updateState ⟨true, true⟩ ⟨1, 5, false⟩ sampleUpdateObs []
      sampleState).1 = ModuleStatus.SUCCESS ∧
    ModuleStatus.SUCCESS ≠ ModuleStatus.FAILURE := by decide

/-- C8 (amended): during a waiting-approval state update with a valid path,
a target-object count below `execute_object_num` transitions to SUCCESS,
while a nearest-object longitudinal distance below
`execute_object_longitudinal_margin`, or (with
`execute_only_when_lane_change_finish_before_object` set) a maneuver that
does not finish before the front object, transitions to FAILURE. -/
theorem C8_waiting_gate_transitions (p : LCParams) (ep : ExecParams)
    (obs : UpdateObs) (targets : List ObjectData) (st : ModState)
    (hvalid : st.isValidPathFlag = true)
    (hwait : st.waitingApproval = true) :
    (ep.executeObjectNum > targets.length →
      (updateState p ep obs targets st).1 = ModuleStatus.SUCCESS) ∧
    (∀ o ts, targets = o :: ts →
      ¬ep.executeObjectNum > targets.length →
      (ep.executeObjectLongitudinalMargin > o.longitudinal →
        (updateState p ep obs targets st).1 = ModuleStatus.FAILURE) ∧
      (¬ep.executeObjectLongitudinalMargin > o.longitudinal →
        ¬o.longitudinal > obs.toLaneChangeEndDistance →
        ep.executeOnlyWhenLaneChangeFinishBeforeObject = true →
        (updateState p ep obs targets st).1 = ModuleStatus.FAILURE)) := by
  constructor
  · intro hnum
    simp [updateState, hvalid, hwait, hnum]
  · rintro o ts rfl hnum
    have hnum2 : ¬ts.length + 1 < ep.executeObjectNum := by
      simpa using hnum
    constructor
    · intro hmargin
      simp [updateState, hvalid, hwait, hnum2, hmargin]
    · intro hm hf hflag
      simp [updateState, hvalid, hwait, hnum2, hm, hf, hflag]

/-- Witness for the amended C8: one object at distance 3 with margin 5 while
waiting for approval yields FAILURE. -/
theorem C8_waiting_gate_transitions_witness :
    (updateState ⟨true, true⟩ ⟨1, 5, false⟩ sampleUpdateObs [⟨3, 0⟩]
      sampleState).1 = ModuleStatus.FAILURE :=
  (((C8_waiting_gate_transitions ⟨true, true⟩ ⟨1, 5, false⟩ sampleUpdateObs
    [⟨3, 0⟩] sampleState (by decide) (by decide)).2) ⟨3, 0⟩ [] rfl
    (by decide)).1 (by decide)

/-- C9: `getLaneChangeLanes` returns the empty lane sequence whenever the
current lane sequence is empty or the target-object count is strictly below
`execute_object_num`; in particular it never returns a non-empty sequence
when the object count is below the threshold. -/
theorem C9_getLaneChangeLanes_empty (ep : ExecParams) (env : RouteEnv)
    (currentLanes : List Nat) (targets : List ObjectData)
    (h : currentLanes = [] ∨ targets.length < ep.executeObjectNum) :
    getLaneChangeLanes ep env currentLanes targets = [] := by
  unfold getLaneChangeLanes
  rcases h with h | h
  · simp [h]
  · by_cases hc : currentLanes.isEmpty = true
    · simp [hc]
    · simp [hc, h]

/-- A concrete route environment for the C9 witness. -/
def sampleRouteEnv : RouteEnv where
  closestLane := 1
  checkLanes := [1]
  leftOf := fun _ => some 2
  rightOf := fun _ => some 2
  seqOf := fun _ => [2]

/-- Witness for C9: below-threshold object count yields the empty lane
sequence even though an adjacent lane exists. -/
theorem C9_getLaneChangeLanes_empty_witness :
    getLaneChangeLanes ⟨1, 5, false⟩ sampleRouteEnv [1] [] = [] :=
  C9_getLaneChangeLanes_empty ⟨1, 5, false⟩ sampleRouteEnv [1] []
    (Or.inr (by decide))

/-- C10: while the module status is RUNNING, `isExecutionRequested` and
`isExecutionReady` return true for every configuration of the gate inputs,
bypassing the trigger gates and the safety check; the gates are consulted
only for a non-RUNNING status. -/
theorem C10_running_bypasses_gates (ep : ExecParams) (lanes : List Nat)
    (targets : List ObjectData) (validPaths : List LaneChangePath)
    (foundSafePath : Bool) (arcToShiftEnd : LaneChangePath → Int) :
    isExecutionRequested ep ModuleStatus.RUNNING lanes targets validPaths
      foundSafePath arcToShiftEnd = true ∧
    isExecutionReady ModuleStatus.RUNNING lanes targets validPaths
      foundSafePath = true ∧
    (∀ state, state ≠ ModuleStatus.RUNNING →
      isExecutionReady state lanes targets validPaths foundSafePath =
        (getSafePath lanes targets validPaths foundSafePath).1.2) := by
  refine ⟨by simp [isExecutionRequested], by simp [isExecutionReady], ?_⟩
  intro state hstate
  simp [isExecutionReady, hstate]

/-- Witness for C10 at concrete (empty) gate inputs. -/
theorem C10_running_bypasses_gates_witness :
    isExecutionRequested ⟨1, 5, false⟩ ModuleStatus.RUNNING [] [] [] false
      (fun _ => 0) = true ∧
    isExecutionReady ModuleStatus.IDLE [] [] [] false =
      (getSafePath [] [] [] false).1.2 := by
  obtain ⟨h1, h2, h3⟩ := C10_running_bypasses_gates ⟨1, 5, false⟩ [] [] []
    false (fun _ => 0)
  exact ⟨h1, h3 ModuleStatus.IDLE (by decide)⟩

end AvoidanceByLC
